import Mathlib

/-!
Verification of the eparis/bugzilla client library against its specification.

The repository is a Go client for the Bugzilla REST and JSONRPC APIs.  Strings
are embedded as `List Char` (the Go `string` is a byte sequence; all data here
is ASCII) or as Lean `String` where only whole-value equality matters.  The
handler logic of the client is embedded as pure functions from decoded
requests/responses to results; fallible operations return `Except` or pair a
result with an optional error, mirroring Go's `(value, error)` returns.
-/

namespace Bugzilla

/-- Modelled from the spec: Go's `strings.Split` on a single-character
separator, as used by the missing `client.go` to parse pull identifiers.
`splitOnChar sep s` never returns `[]`; splitting the empty list gives
`[[]]`, matching `strings.Split("", sep) = [""]`. -/
def splitOnChar (sep : Char) : List Char → List (List Char)
  | [] => [[]]
  | c :: cs =>
    if c = sep then
      [] :: splitOnChar sep cs
    else
      match splitOnChar sep cs with
      | [] => [[c]]
      | h :: t => (c :: h) :: t

/-- Decimal digit character for a digit value below ten. -/
def digitChar (d : Nat) : Char :=
  Char.ofNat (48 + d)

/-- Modelled from the spec: decimal rendering of a non-negative integer, as
`fmt.Sprintf("%d", n)` produces in the missing `client.go`
(most-significant digit first, `0` rendered as `"0"`). -/
def natToChars (n : Nat) : List Char :=
  if n = 0 then ['0'] else ((Nat.digits 10 n).map digitChar).reverse

/-- A character is a decimal digit. -/
def isDigitChar (c : Char) : Bool :=
  48 ≤ c.toNat && c.toNat ≤ 57

/-- Modelled from the spec: decimal parsing of a trailing identifier segment,
as the missing `client.go` does with `strconv.Atoi`; a non-numeric segment
fails to parse. -/
def charsToNat? (s : List Char) : Option Nat :=
  if s = [] then none
  else if s.all isDigitChar then
    some (s.foldl (fun acc c => 10 * acc + (c.toNat - 48)) 0)
  else none

/-- Modelled from the spec: the error kinds of the missing identifier parser
in `client.go`: a distinguishable "not a pull" kind for a well-formed
identifier that does not reference a pull request, and a generic kind for
malformed identifiers. -/
inductive IdentifierErr where
  | notForPull (identifier : List Char)
  | generic
deriving DecidableEq

/-- Modelled from the spec: the missing `IsIdentifierNotForPullErr`, which
recognizes exactly the distinguishable "not a pull" error kind. -/
def IsIdentifierNotForPullErr : IdentifierErr → Bool
  | .notForPull _ => true
  | .generic => false

/-- Modelled from the spec: the missing `IdentifierForPull`, which renders
the canonical pull identifier `org/repo/pull/number`. -/
def IdentifierForPull (org repo : List Char) (num : Nat) : List Char :=
  org ++ '/' :: (repo ++ '/' :: ("pull".data ++ '/' :: natToChars num))

/-- Modelled from the spec: the missing `PullFromIdentifier`.  It splits the
identifier on `/` and requires exactly four segments; a wrong segment count
yields a generic error (spec section 8: `"org/repo"` yields a generic
error), a third segment other than the literal `pull` yields the
distinguishable not-a-pull error, and a non-numeric trailing segment yields
a generic parse error. -/
def PullFromIdentifier (identifier : List Char) :
    Except IdentifierErr (List Char × List Char × Nat) :=
  let parts := splitOnChar '/' identifier
  if parts.length ≠ 4 then
    .error .generic
  else if parts.getD 2 [] ≠ "pull".data then
    .error (.notForPull identifier)
  else
    match charsToNat? (parts.getD 3 []) with
    | none => .error .generic
    | some n => .ok (parts.getD 0 [], parts.getD 1 [], n)

/-- List version of Go's `strings.HasPrefix`: the first list read from the
start of the second. -/
def startsWithChars : List Char → List Char → Bool
  | [], _ => true
  | _ :: _, [] => false
  | a :: as, b :: bs => a == b && startsWithChars as bs

/-- List version of Go's `strings.Contains`: the needle occurs somewhere in
the haystack. -/
def containsChars (needle : List Char) : List Char → Bool
  | [] => startsWithChars needle []
  | c :: rest => startsWithChars needle (c :: rest) || containsChars needle rest

/-- Modelled from the spec: the decoded JSONRPC error object of the
response to `ExternalBugs.add_external_bug`, handled by the missing
`AddPullRequestAsExternalBug` in `client.go`. -/
structure JSONRPCError where
  code : Int
  message : List Char
deriving DecidableEq

/-- Modelled from the spec: one entry of the result's list of changed bugs
in the `ExternalBugs.add_external_bug` response. -/
structure ChangedBug where
  id : Int
deriving DecidableEq

/-- Modelled from the spec: the decoded JSONRPC 1.0 response envelope for
`ExternalBugs.add_external_bug`: an optional error object, the echoed
request id, and an optional result listing zero or more changed bugs. -/
structure JSONRPCResponse where
  error : Option JSONRPCError
  id : List Char
  result : Option (List ChangedBug)
deriving DecidableEq

/-- The server-side message marking re-application of an already-applied
external-bug link, from the repository's own test fixture. -/
def dupKeyNeedle : List Char :=
  "duplicate key value violates unique constraint \"ext_bz_bug_map_bug_id_idx\"".data

/-- Modelled from the spec: recognition, inside the missing
`AddPullRequestAsExternalBug`, of the server error reporting that the link
being added is already present on the bug (idempotent re-application). -/
def isDuplicateKeyErr (e : JSONRPCError) : Bool :=
  containsChars dupKeyNeedle e.message

/-- Modelled from the spec: the error kinds `AddPullRequestAsExternalBug`
can report: a propagated JSONRPC server error, or a protocol inconsistency
when the response id differs from the request id. -/
inductive AddExternalBugError where
  | serverError (code : Int) (message : List Char)
  | idMismatch (sent got : List Char)
deriving DecidableEq

/-- Modelled from the spec: the response handling of the missing
`AddPullRequestAsExternalBug` in `client.go`, returning Go's
`(changed, err)` pair.  The response is inspected in the spec's order:
first a non-null error object (reporting no error and no change when it is
the duplicate-key error, propagating it as a failure otherwise), then an id
mismatch between request and response, then the result listing changed
bugs, reporting whether a change was recorded for the requested bug. -/
def handleAddExternalBugResponse (bugId : Int) (requestId : List Char)
    (resp : JSONRPCResponse) : Bool × Option AddExternalBugError :=
  match resp.error with
  | some e =>
    if isDuplicateKeyErr e then (false, none)
    else (false, some (.serverError e.code e.message))
  | none =>
    if resp.id ≠ requestId then
      (false, some (.idMismatch requestId resp.id))
    else
      match resp.result with
      | none => (false, none)
      | some bugs => (bugs.any fun b => b.id == bugId, none)

/-- A JSON value, the shape Go's `encoding/json` decodes a response body
into before mapping it onto the client's structures.  All numbers in the
Bugzilla payloads are integers. -/
inductive Json where
  | null
  | bool (b : Bool)
  | num (n : Int)
  | str (s : String)
  | arr (elems : List Json)
  | obj (fields : List (String × Json))

/-- Look a key up in a JSON object. -/
def Json.getField : Json → String → Option Json
  | .obj fields, key => fields.lookup key
  | _, _ => none

/-- Decode a string field the way Go's `encoding/json` fills a `string`
struct field: absent or null leaves the zero value, a non-string shape is a
decode failure. -/
def Json.strFieldD (j : Json) (key : String) : Option String :=
  match j.getField key with
  | none => some ""
  | some .null => some ""
  | some (.str s) => some s
  | some _ => none

/-- Decode an integer field; absent or null leaves the zero value. -/
def Json.intFieldD (j : Json) (key : String) : Option Int :=
  match j.getField key with
  | none => some 0
  | some .null => some 0
  | some (.num n) => some n
  | some _ => none

/-- Decode a boolean field; absent or null leaves the zero value. -/
def Json.boolFieldD (j : Json) (key : String) : Option Bool :=
  match j.getField key with
  | none => some false
  | some .null => some false
  | some (.bool b) => some b
  | some _ => none

/-- Decode an array field; absent or null leaves the empty slice. -/
def Json.arrFieldD (j : Json) (key : String) : Option (List Json) :=
  match j.getField key with
  | none => some []
  | some .null => some []
  | some (.arr xs) => some xs
  | some _ => none

/-- Decode a JSON array of strings. -/
def decodeStrings (xs : List Json) : Option (List String) :=
  xs.mapM fun j =>
    match j with
    | .str s => some s
    | _ => none

/-- Decode a JSON array of integers. -/
def decodeInts (xs : List Json) : Option (List Int) :=
  xs.mapM fun j =>
    match j with
    | .num n => some n
    | _ => none

/-- Modelled from the spec: the `User` structure of the missing `types.go`,
as exercised by the repository's test fixture (`assigned_to_detail` and
friends). -/
structure User where
  Email : String
  ID : Int
  Name : String
  RealName : String
deriving DecidableEq

/-- Decode a user detail object per its Go field tags. -/
def decodeUser (j : Json) : Option User := do
  let email ← j.strFieldD "email"
  let id ← j.intFieldD "id"
  let name ← j.strFieldD "name"
  let realName ← j.strFieldD "real_name"
  some { Email := email, ID := id, Name := name, RealName := realName }

/-- Decode an optional user detail field (a Go `*User`: absent or null is
`nil`). -/
def Json.userFieldD (j : Json) (key : String) : Option (Option User) :=
  match j.getField key with
  | none => some none
  | some .null => some none
  | some (.obj fields) => (decodeUser (.obj fields)).map some
  | some _ => none

/-- Decode a list-of-users field (a Go `[]User`). -/
def Json.userListFieldD (j : Json) (key : String) : Option (List User) := do
  let xs ← j.arrFieldD key
  xs.mapM decodeUser

/-- Modelled from the spec: the `Bug` structure of the missing `types.go`,
mirroring Bugzilla's bug JSON schema; the fields are the ones the
repository's test fixture populates.  `src/bug.go` defines a method on this
structure. -/
structure Bug where
  Alias : List String
  AssignedTo : String
  AssignedToDetail : Option User
  Blocks : List Int
  CC : List String
  CCDetail : List User
  Classification : String
  Component : List String
  CreationTime : String
  Creator : String
  CreatorDetail : Option User
  DependsOn : List Int
  Groups : List String
  ID : Int
  IsCCAccessible : Bool
  IsConfirmed : Bool
  IsCreatorAccessible : Bool
  IsOpen : Bool
  Keywords : List String
  LastChangeTime : String
  OperatingSystem : String
  Platform : String
  Priority : String
  Product : String
  SeeAlso : List String
  Severity : String
  Status : String
  Summary : String
  TargetMilestone : String
  TargetRelease : List String
  Version : List String
deriving DecidableEq

/-- Translated from `src/bug.go`: `HasTargetReleae` scans the bug's target
releases and the searched targets and reports whether any pair is equal
(the nested loops with early return). -/
def Bug.HasTargetReleae (bug : Bug) (targets : List String) : Bool :=
  bug.TargetRelease.any fun bugTarget =>
    targets.any fun searchTarget => bugTarget == searchTarget

/-- First slice of the bug decoding (the fields feeding `Alias` through
`Component` of `Bug`), split out to keep each definition small. -/
def decodeBugFields1 (j : Json) :
    Option (List String × String × Option User × List Int × List String ×
      List User × String × List String) := do
  let aliasList ← j.arrFieldD "alias" >>= decodeStrings
  let assignedTo ← j.strFieldD "assigned_to"
  let assignedToDetail ← j.userFieldD "assigned_to_detail"
  let blocks ← j.arrFieldD "blocks" >>= decodeInts
  let cc ← j.arrFieldD "cc" >>= decodeStrings
  let ccDetail ← j.userListFieldD "cc_detail"
  let classification ← j.strFieldD "classification"
  let component ← j.arrFieldD "component" >>= decodeStrings
  some (aliasList, assignedTo, assignedToDetail, blocks, cc, ccDetail,
    classification, component)

/-- Second slice of the bug decoding (`CreationTime` through
`IsConfirmed`). -/
def decodeBugFields2 (j : Json) :
    Option (String × String × Option User × List Int × List String × Int ×
      Bool × Bool) := do
  let creationTime ← j.strFieldD "creation_time"
  let creator ← j.strFieldD "creator"
  let creatorDetail ← j.userFieldD "creator_detail"
  let dependsOn ← j.arrFieldD "depends_on" >>= decodeInts
  let groups ← j.arrFieldD "groups" >>= decodeStrings
  let id ← j.intFieldD "id"
  let isCCAccessible ← j.boolFieldD "is_cc_accessible"
  let isConfirmed ← j.boolFieldD "is_confirmed"
  some (creationTime, creator, creatorDetail, dependsOn, groups, id,
    isCCAccessible, isConfirmed)

/-- Third slice of the bug decoding (`IsCreatorAccessible` through
`Product`). -/
def decodeBugFields3 (j : Json) :
    Option (Bool × Bool × List String × String × String × String × String ×
      String) := do
  let isCreatorAccessible ← j.boolFieldD "is_creator_accessible"
  let isOpen ← j.boolFieldD "is_open"
  let keywords ← j.arrFieldD "keywords" >>= decodeStrings
  let lastChangeTime ← j.strFieldD "last_change_time"
  let operatingSystem ← j.strFieldD "op_sys"
  let platform ← j.strFieldD "platform"
  let priority ← j.strFieldD "priority"
  let product ← j.strFieldD "product"
  some (isCreatorAccessible, isOpen, keywords, lastChangeTime,
    operatingSystem, platform, priority, product)

/-- Fourth slice of the bug decoding (`SeeAlso` through `Version`). -/
def decodeBugFields4 (j : Json) :
    Option (List String × String × String × String × String × List String ×
      List String) := do
  let seeAlso ← j.arrFieldD "see_also" >>= decodeStrings
  let severity ← j.strFieldD "severity"
  let status ← j.strFieldD "status"
  let summary ← j.strFieldD "summary"
  let targetMilestone ← j.strFieldD "target_milestone"
  let targetRelease ← j.arrFieldD "target_release" >>= decodeStrings
  let version ← j.arrFieldD "version" >>= decodeStrings
  some (seeAlso, severity, status, summary, targetMilestone, targetRelease,
    version)

/-- Modelled from the spec: the decoding of one bug object onto the `Bug`
structure per the Go field tags of the missing `types.go`.  Absent or null
fields keep the Go zero value; a field of the wrong shape fails the
decode. -/
def decodeBug (j : Json) : Option Bug := do
  let (aliasList, assignedTo, assignedToDetail, blocks, cc, ccDetail,
    classification, component) ← decodeBugFields1 j
  let (creationTime, creator, creatorDetail, dependsOn, groups, id,
    isCCAccessible, isConfirmed) ← decodeBugFields2 j
  let (isCreatorAccessible, isOpen, keywords, lastChangeTime,
    operatingSystem, platform, priority, product) ← decodeBugFields3 j
  let (seeAlso, severity, status, summary, targetMilestone, targetRelease,
    version) ← decodeBugFields4 j
  some {
    Alias := aliasList, AssignedTo := assignedTo,
    AssignedToDetail := assignedToDetail, Blocks := blocks, CC := cc,
    CCDetail := ccDetail, Classification := classification,
    Component := component, CreationTime := creationTime, Creator := creator,
    CreatorDetail := creatorDetail, DependsOn := dependsOn, Groups := groups,
    ID := id, IsCCAccessible := isCCAccessible, IsConfirmed := isConfirmed,
    IsCreatorAccessible := isCreatorAccessible, IsOpen := isOpen,
    Keywords := keywords, LastChangeTime := lastChangeTime,
    OperatingSystem := operatingSystem, Platform := platform,
    Priority := priority, Product := product, SeeAlso := seeAlso,
    Severity := severity, Status := status, Summary := summary,
    TargetMilestone := targetMilestone, TargetRelease := targetRelease,
    Version := version }

/-- Modelled from the spec: the missing `GetBug` decodes the REST response
page `\x7b"bugs":[...]\x7d` and requires it to carry exactly one bug. -/
def decodeBugPage (j : Json) : Option Bug := do
  let bugs ← j.arrFieldD "bugs"
  match bugs with
  | [b] => decodeBug b
  | _ => none

/-- The REST response body served by the repository's `TestGetBug` fixture
(`bugData` in `src/client_test.go`), transcribed as a JSON value. -/
def bugDataJson : Json :=
  .obj [
    ("bugs", .arr [
      .obj [
        ("alias", .arr []),
        ("assigned_to", .str "Steve Kuznetsov"),
        ("assigned_to_detail", .obj [
          ("email", .str "skuznets"), ("id", .num 381851),
          ("name", .str "skuznets"), ("real_name", .str "Steve Kuznetsov")]),
        ("blocks", .arr []),
        ("cc", .arr [.str "Sudha Ponnaganti"]),
        ("cc_detail", .arr [.obj [
          ("email", .str "sponnaga"), ("id", .num 426940),
          ("name", .str "sponnaga"), ("real_name", .str "Sudha Ponnaganti")]]),
        ("classification", .str "Red Hat"),
        ("component", .arr [.str "Test Infrastructure"]),
        ("creation_time", .str "2019-05-01T19:33:36Z"),
        ("creator", .str "Dan Mace"),
        ("creator_detail", .obj [
          ("email", .str "dmace"), ("id", .num 330250),
          ("name", .str "dmace"), ("real_name", .str "Dan Mace")]),
        ("deadline", .null),
        ("depends_on", .arr []),
        ("docs_contact", .str ""),
        ("dupe_of", .null),
        ("groups", .arr []),
        ("id", .num 1705243),
        ("is_cc_accessible", .bool true),
        ("is_confirmed", .bool true),
        ("is_creator_accessible", .bool true),
        ("is_open", .bool true),
        ("keywords", .arr []),
        ("last_change_time", .str "2019-05-17T15:13:13Z"),
        ("op_sys", .str "Unspecified"),
        ("platform", .str "Unspecified"),
        ("priority", .str "unspecified"),
        ("product", .str "OpenShift Container Platform"),
        ("qa_contact", .str ""),
        ("resolution", .str ""),
        ("see_also", .arr []),
        ("severity", .str "medium"),
        ("status", .str "VERIFIED"),
        ("summary", .str "[ci] cli image flake affecting *-images jobs"),
        ("target_milestone", .str "---"),
        ("target_release", .arr [.str "3.11.z"]),
        ("url", .str ""),
        ("version", .arr [.str "3.11.0"]),
        ("whiteboard", .str "")]]),
    ("faults", .arr [])]

/-- The decoded structure the repository's test expects for that body
(`bugStruct` in `src/client_test.go`). -/
def bugStruct : Bug := {
  Alias := [], AssignedTo := "Steve Kuznetsov",
  AssignedToDetail := some ⟨"skuznets", 381851, "skuznets", "Steve Kuznetsov"⟩,
  Blocks := [], CC := ["Sudha Ponnaganti"],
  CCDetail := [⟨"sponnaga", 426940, "sponnaga", "Sudha Ponnaganti"⟩],
  Classification := "Red Hat", Component := ["Test Infrastructure"],
  CreationTime := "2019-05-01T19:33:36Z", Creator := "Dan Mace",
  CreatorDetail := some ⟨"dmace", 330250, "dmace", "Dan Mace"⟩,
  DependsOn := [], Groups := [], ID := 1705243,
  IsCCAccessible := true, IsConfirmed := true, IsCreatorAccessible := true,
  IsOpen := true, Keywords := [],
  LastChangeTime := "2019-05-17T15:13:13Z",
  OperatingSystem := "Unspecified", Platform := "Unspecified",
  Priority := "unspecified", Product := "OpenShift Container Platform",
  SeeAlso := [], Severity := "medium", Status := "VERIFIED",
  Summary := "[ci] cli image flake affecting *-images jobs",
  TargetMilestone := "---", TargetRelease := ["3.11.z"],
  Version := ["3.11.0"] }

/-- Modelled from the spec: the error kinds of the missing `client.go`'s
REST calls: not-found for HTTP 404, a decode failure, and other transport
failures carrying the status code. -/
inductive ClientError where
  | notFound
  | decodeFailure
  | requestFailure (status : Nat)
deriving DecidableEq

/-- Modelled from the spec: the missing `IsNotFound`, recognizing exactly
the not-found error kind. -/
def IsNotFound : ClientError → Bool
  | .notFound => true
  | _ => false

deriving instance DecidableEq for Except

/-- Modelled from the spec: the response handling of the missing `GetBug`:
HTTP 404 maps to the not-found error and no bug; otherwise the body is
decoded into a `Bug`. -/
def getBugHandle (status : Nat) (body : Json) : Except ClientError Bug :=
  if status == 404 then .error .notFound
  else
    match decodeBugPage body with
    | some b => .ok b
    | none => .error .decodeFailure

/-- Modelled from the spec: the partial mutation payload of the missing
`types.go`; the repository's test exercises only the status field. -/
structure BugUpdate where
  Status : String
deriving DecidableEq

/-- Modelled from the spec: the JSON serialization of a `BugUpdate`, the
exact PUT body `\x7b"status":"<value>"\x7d`. -/
def encodeBugUpdate (u : BugUpdate) : String :=
  "\x7b\"status\":\"" ++ u.Status ++ "\"\x7d"

/-- The parts of an outgoing HTTP request the claims observe. -/
structure HttpRequest where
  method : String
  path : String
  contentType : String
  body : String
deriving DecidableEq

/-- Modelled from the spec: the request the missing `UpdateBug` issues — a
PUT to `/rest/bug/<id>` with the serialized `BugUpdate` as JSON body. -/
def updateBugRequest (id : Nat) (update : BugUpdate) : HttpRequest :=
  { method := "PUT", path := "/rest/bug/" ++ toString id,
    contentType := "application/json", body := encodeBugUpdate update }

/-- Modelled from the spec: the response handling of the missing
`UpdateBug`: HTTP 404 maps to the not-found error kind, success carries no
error, other statuses are transport failures. -/
def updateBugHandle (status : Nat) : Option ClientError :=
  if status == 404 then some .notFound
  else if status == 200 then none
  else some (.requestFailure status)

/-- Modelled from the spec: the mode name accepted by the missing
`SetAuthMethod` for the bearer-token header mode. -/
def AuthBearer : String := "bearer"

/-- Modelled from the spec: the mode name for the API-key query-parameter
mode. -/
def AuthQuery : String := "query"

/-- Modelled from the spec: the mode name for the vendor-specific
`X-BUGZILLA-API-KEY` header mode. -/
def AuthXBugzillaAPIKey : String := "x-bugzilla-api-key"

/-- Modelled from the spec: the credential-attachment modes of the missing
`client.go`: the three selectable modes plus the backward-compatible
default used when no mode is selected. -/
inductive AuthMode where
  | bearer
  | query
  | xBugzillaAPIKey
  | defaultBoth
deriving DecidableEq

/-- Modelled from the spec: the configuration error of the missing
`SetAuthMethod` for an unrecognized mode name. -/
inductive ConfigError where
  | invalidAuthMethod
deriving DecidableEq

/-- Modelled from the spec: the missing `SetAuthMethod` validates the mode
name at configuration time; the empty selection keeps the
backward-compatible default, an unrecognized name is a configuration
error. -/
def SetAuthMethod (method : String) : Except ConfigError AuthMode :=
  if method = AuthBearer then .ok .bearer
  else if method = AuthQuery then .ok .query
  else if method = AuthXBugzillaAPIKey then .ok .xBugzillaAPIKey
  else if method = "" then .ok .defaultBoth
  else .error .invalidAuthMethod

/-- The credential carriers of an outgoing request: the `Authorization`
header, the `X-BUGZILLA-API-KEY` header and the `api_key` query
parameter. -/
structure RequestAuth where
  authorizationHeader : Option String
  xBugzillaAPIKeyHeader : Option String
  apiKeyQuery : Option String
deriving DecidableEq

/-- Modelled from the spec: how the missing `client.go` attaches the
credential to a request under each mode — exactly one mechanism per
selected mode, and both the query parameter and the vendor header under
the default. -/
def applyAuth (mode : AuthMode) (apiKey : String) : RequestAuth :=
  match mode with
  | .bearer => ⟨some ("Bearer " ++ apiKey), none, none⟩
  | .query => ⟨none, none, some apiKey⟩
  | .xBugzillaAPIKey => ⟨none, some apiKey, none⟩
  | .defaultBoth => ⟨none, some apiKey, some apiKey⟩

end Bugzilla

namespace Bugzilla

theorem splitOnChar_ne_nil (sep : Char) (s : List Char) :
    splitOnChar sep s ≠ [] := by
  induction s with
  | nil => simp [splitOnChar]
  | cons c cs ih =>
    simp only [splitOnChar]
    split
    · simp
    · cases h : splitOnChar sep cs with
      | nil => simp
      | cons hd tl => simp

theorem splitOnChar_of_not_mem (sep : Char) (s : List Char) (h : sep ∉ s) :
    splitOnChar sep s = [s] := by
  induction s with
  | nil => rfl
  | cons c cs ih =>
    simp only [List.mem_cons, not_or] at h
    simp only [splitOnChar, if_neg (Ne.symm h.1)]
    rw [ih h.2]

theorem splitOnChar_append (sep : Char) (l r : List Char) (h : sep ∉ l) :
    splitOnChar sep (l ++ sep :: r) = l :: splitOnChar sep r := by
  induction l with
  | nil => simp [splitOnChar]
  | cons c cs ih =>
    simp only [List.mem_cons, not_or] at h
    simp only [List.cons_append, splitOnChar, if_neg (Ne.symm h.1)]
    simp only [List.append_eq]
    rw [ih h.2]

theorem digitChar_toNat (d : Nat) (h : d < 10) : (digitChar d).toNat = 48 + d := by
  interval_cases d <;> rfl

theorem isDigitChar_digitChar (d : Nat) (h : d < 10) :
    isDigitChar (digitChar d) = true := by
  simp only [isDigitChar, digitChar_toNat d h, Bool.and_eq_true, decide_eq_true_eq]
  omega

theorem slash_not_mem_natToChars (n : Nat) : '/' ∉ natToChars n := by
  intro hmem
  unfold natToChars at hmem
  split at hmem
  · simp at hmem
  · simp only [List.mem_reverse, List.mem_map] at hmem
    obtain ⟨d, hd, hc⟩ := hmem
    have hlt : d < 10 := Nat.digits_lt_base (by norm_num) hd
    have := congrArg Char.toNat hc
    rw [digitChar_toNat d hlt] at this
    simp only [show ('/').toNat = 47 from rfl] at this
    omega

theorem foldl_digits (l : List Nat) (a : Nat) (h : ∀ d ∈ l, d < 10) :
    List.foldl (fun acc c => 10 * acc + (c.toNat - 48)) a ((l.map digitChar).reverse)
      = a * 10 ^ l.length + Nat.ofDigits 10 l := by
  induction l generalizing a with
  | nil => simp [Nat.ofDigits]
  | cons d t ih =>
    simp only [List.map_cons, List.reverse_cons, List.foldl_append, List.foldl_cons,
      List.foldl_nil]
    rw [ih a fun x hx => h x (List.mem_cons_of_mem _ hx)]
    rw [digitChar_toNat d (h d (List.mem_cons_self _ _))]
    rw [Nat.ofDigits_cons]
    simp only [Nat.cast_id, List.length_cons, pow_succ, Nat.add_sub_cancel_left]
    ring

theorem charsToNat?_natToChars (n : Nat) : charsToNat? (natToChars n) = some n := by
  by_cases h : n = 0
  · subst h; rfl
  · unfold natToChars
    rw [if_neg h]
    unfold charsToNat?
    have hne : ((Nat.digits 10 n).map digitChar).reverse ≠ [] := by
      simp [Nat.digits_ne_nil_iff_ne_zero.mpr h]
    rw [if_neg hne]
    have hall : (((Nat.digits 10 n).map digitChar).reverse).all isDigitChar = true := by
      simp only [List.all_eq_true, List.mem_reverse, List.mem_map]
      rintro c ⟨d, hd, rfl⟩
      exact isDigitChar_digitChar d (Nat.digits_lt_base (by norm_num) hd)
    rw [if_pos hall]
    rw [foldl_digits _ 0 fun d hd => Nat.digits_lt_base (by norm_num) hd]
    simp [Nat.ofDigits_digits]

theorem splitOnChar_length (sep : Char) (s : List Char) :
    (splitOnChar sep s).length = s.count sep + 1 := by
  induction s with
  | nil => simp [splitOnChar]
  | cons c cs ih =>
    simp only [splitOnChar]
    split
    · rename_i hc
      simp [List.count_cons, hc, ih]
    · rename_i hc
      cases h : splitOnChar sep cs with
      | nil => exact absurd h (splitOnChar_ne_nil sep cs)
      | cons hd tl =>
        rw [h] at ih
        simp only [List.length_cons] at ih ⊢
        simp [List.count_cons, hc, ih]

/-- Claim C1: `PullFromIdentifier "org/repo/pull/1234"` returns
`("org", "repo", 1234)` with no error; `"org/repo/issue/1234"` returns the
distinguishable not-a-pull error recognized by `IsIdentifierNotForPullErr`;
`"org/repo"` returns a generic error that is not of the not-a-pull kind. -/
theorem pullFromIdentifier_examples :
    PullFromIdentifier ("org/repo/pull/1234".data)
        = .ok ("org".data, "repo".data, 1234) ∧
    (PullFromIdentifier ("org/repo/issue/1234".data)
        = .error (.notForPull ("org/repo/issue/1234".data)) ∧
      IsIdentifierNotForPullErr (.notForPull ("org/repo/issue/1234".data)) = true) ∧
    (PullFromIdentifier ("org/repo".data) = .error .generic ∧
      IsIdentifierNotForPullErr .generic = false) :=
  ⟨rfl, ⟨rfl, rfl⟩, rfl, rfl⟩

/-- Claim C2 counterexample: the claim says a wrong segment count yields the
distinguishable not-a-pull error kind, but on `"organization/repository"`
(two segments, the input from the repository's own test) the parser yields
the generic error, which the not-a-pull recognizer rejects. -/
theorem pullFromIdentifier_twoSegments :
    PullFromIdentifier ("organization/repository".data) = .error .generic ∧
    IsIdentifierNotForPullErr .generic = false :=
  ⟨rfl, rfl⟩

/-- Claim C2 (amended): `PullFromIdentifier` splits on `/` and requires
exactly four segments with the literal `pull` as the third segment; an input
with the wrong segment count yields a generic (non-not-a-pull) error; a
four-segment input whose third segment is not `pull` yields the
distinguishable not-a-pull error; and a four-segment input with `pull` third
but a non-numeric trailing segment yields a generic error that is not of the
not-a-pull kind. -/
theorem pullFromIdentifier_cases (s : List Char) :
    (s.count '/' ≠ 3 →
      PullFromIdentifier s = .error .generic ∧
      IsIdentifierNotForPullErr .generic = false) ∧
    (∀ a b c d, splitOnChar '/' s = [a, b, c, d] → c ≠ "pull".data →
      PullFromIdentifier s = .error (.notForPull s) ∧
      IsIdentifierNotForPullErr (.notForPull s) = true) ∧
    (∀ a b d, splitOnChar '/' s = [a, b, "pull".data, d] → charsToNat? d = none →
      PullFromIdentifier s = .error .generic ∧
      IsIdentifierNotForPullErr .generic = false) := by
  refine ⟨fun h => ?_, fun a b c d hs hc => ?_, fun a b d hs hn => ?_⟩
  · have hl : (splitOnChar '/' s).length ≠ 4 := by
      rw [splitOnChar_length]; omega
    refine ⟨?_, rfl⟩
    simp only [PullFromIdentifier]
    rw [if_pos hl]
  · refine ⟨?_, rfl⟩
    simp only [PullFromIdentifier, hs]
    simp [hc]
  · refine ⟨?_, rfl⟩
    simp only [PullFromIdentifier, hs]
    simp [hn]

/-- Claim C2 witness: the amended case analysis applied to the repository's
own test input `"organization/repository/issue/1234"`. -/
theorem pullFromIdentifier_cases_w :
    PullFromIdentifier ("organization/repository/issue/1234".data)
        = .error (.notForPull ("organization/repository/issue/1234".data)) ∧
    IsIdentifierNotForPullErr
        (.notForPull ("organization/repository/issue/1234".data)) = true :=
  (pullFromIdentifier_cases ("organization/repository/issue/1234".data)).2.1
    ("organization".data) ("repository".data) ("issue".data) ("1234".data)
    rfl (by decide)

/-- Claim C9: for every org and repo free of `/` and every number,
parsing the canonical identifier built by `IdentifierForPull` recovers
exactly the original org, repo and number, with no error. -/
theorem identifierForPull_roundtrip (org repo : List Char) (n : Nat)
    (ho : '/' ∉ org) (hr : '/' ∉ repo) :
    PullFromIdentifier (IdentifierForPull org repo n) = .ok (org, repo, n) := by
  simp only [IdentifierForPull, PullFromIdentifier]
  rw [splitOnChar_append _ _ _ ho, splitOnChar_append _ _ _ hr,
    splitOnChar_append _ _ _ (by decide),
    splitOnChar_of_not_mem _ _ (slash_not_mem_natToChars n)]
  simp [charsToNat?_natToChars]

/-- Claim C3 counterexample: a response carrying a non-null error object —
the duplicate-key error from the repository's own test fixture — on which
the call reports no error at all (it reports `(false, none)`), refuting the
claim that every non-null error object is reported as an error. -/
theorem addExternalBug_dupError_noError :
    ((⟨some ⟨100500, "DBD::Pg::db do failed: ERROR:  ".data ++ dupKeyNeedle⟩,
        "identifier".data, none⟩ : JSONRPCResponse).error ≠ none) ∧
    handleAddExternalBugResponse 1705248 ("identifier".data)
        ⟨some ⟨100500, "DBD::Pg::db do failed: ERROR:  ".data ++ dupKeyNeedle⟩,
          "identifier".data, none⟩ = (false, none) :=
  ⟨fun h => Option.noConfusion h, rfl⟩

/-- Claim C3 (amended): a response with a non-null error object always
reports no change; it reports the error to the caller unless the error is
the recognized duplicate-key error, in which case it reports no error and
no change. -/
theorem addExternalBug_error_reported (bugId : Int) (reqId : List Char)
    (resp : JSONRPCResponse) (e : JSONRPCError) (he : resp.error = some e) :
    (handleAddExternalBugResponse bugId reqId resp).1 = false ∧
    (isDuplicateKeyErr e = false →
      (handleAddExternalBugResponse bugId reqId resp).2
        = some (.serverError e.code e.message)) ∧
    (isDuplicateKeyErr e = true →
      handleAddExternalBugResponse bugId reqId resp = (false, none)) := by
  cases hd : isDuplicateKeyErr e <;>
    simp [handleAddExternalBugResponse, he, hd]

/-- Claim C3 witness: the amended statement at the repository's own failing
JSONRPC test response (code 100400, not a duplicate-key error). -/
theorem addExternalBug_error_reported_w :
    (handleAddExternalBugResponse 1705246 ("identifier".data)
        ⟨some ⟨100400, "Invalid params for JSONRPC 1.0.".data⟩,
          "identifier".data, none⟩).1 = false ∧
    (handleAddExternalBugResponse 1705246 ("identifier".data)
        ⟨some ⟨100400, "Invalid params for JSONRPC 1.0.".data⟩,
          "identifier".data, none⟩).2
      = some (.serverError 100400 ("Invalid params for JSONRPC 1.0.".data)) := by
  have h := addExternalBug_error_reported 1705246 ("identifier".data)
    ⟨some ⟨100400, "Invalid params for JSONRPC 1.0.".data⟩, "identifier".data, none⟩
    ⟨100400, "Invalid params for JSONRPC 1.0.".data⟩ rfl
  exact ⟨h.1, h.2.1 (by decide)⟩

/-- Claim C4: when the server responds with the duplicate-key error for
re-application of an already-applied link, the call reports no error and no
change. -/
theorem addExternalBug_duplicate (bugId : Int) (reqId : List Char)
    (resp : JSONRPCResponse) (e : JSONRPCError) (he : resp.error = some e)
    (hd : isDuplicateKeyErr e = true) :
    handleAddExternalBugResponse bugId reqId resp = (false, none) := by
  simp [handleAddExternalBugResponse, he, hd]

/-- Claim C4 witness: the duplicate-key response of the repository's own
test, reported as no error and no change. -/
theorem addExternalBug_duplicate_w :
    handleAddExternalBugResponse 1705248 ("identifier".data)
        ⟨some ⟨100500, dupKeyNeedle⟩, "identifier".data, none⟩ = (false, none) :=
  addExternalBug_duplicate 1705248 ("identifier".data)
    ⟨some ⟨100500, dupKeyNeedle⟩, "identifier".data, none⟩
    ⟨100500, dupKeyNeedle⟩ rfl (by decide)

/-- Claim C5 counterexample: a response whose id (`"oops"`) differs from
the sent id (`"identifier"`) but whose error object is the duplicate-key
error is answered with no error at all, refuting the claim that an id
mismatch yields an error regardless of the rest of the response body (the
error object is inspected before the id). -/
theorem addExternalBug_idMismatch_dup :
    ("oops".data ≠ "identifier".data) ∧
    handleAddExternalBugResponse 1705247 ("identifier".data)
        ⟨some ⟨100500, dupKeyNeedle⟩, "oops".data, none⟩ = (false, none) :=
  ⟨by decide, rfl⟩

/-- Claim C5 (amended): if the response id differs from the sent id and the
response's error object, when present, is not the recognized duplicate-key
error, the call reports an error and no change. -/
theorem addExternalBug_idMismatch (bugId : Int) (reqId : List Char)
    (resp : JSONRPCResponse) (hid : resp.id ≠ reqId)
    (hnd : ∀ e, resp.error = some e → isDuplicateKeyErr e = false) :
    (handleAddExternalBugResponse bugId reqId resp).1 = false ∧
    (handleAddExternalBugResponse bugId reqId resp).2 ≠ none := by
  cases he : resp.error with
  | some e =>
    have hd := hnd e he
    simp [handleAddExternalBugResponse, he, hd]
  | none =>
    simp [handleAddExternalBugResponse, he, hid]

/-- Claim C5 witness: the amended statement at the repository's own
id-mismatch test response. -/
theorem addExternalBug_idMismatch_w :
    (handleAddExternalBugResponse 1705247 ("identifier".data)
        ⟨none, "oops".data, some []⟩).1 = false ∧
    (handleAddExternalBugResponse 1705247 ("identifier".data)
        ⟨none, "oops".data, some []⟩).2 ≠ none :=
  addExternalBug_idMismatch 1705247 ("identifier".data)
    ⟨none, "oops".data, some []⟩ (by decide)
    (fun e h => Option.noConfusion h)

/-- Claim C9 witness: the round trip at the repository's own test values. -/
theorem identifierForPull_roundtrip_w :
    PullFromIdentifier (IdentifierForPull ("organization".data) ("repository".data) 1234)
        = .ok ("organization".data, "repository".data, 1234) :=
  identifierForPull_roundtrip ("organization".data) ("repository".data) 1234
    (by decide) (by decide)

/-- Claim C6: decoding the test fixture's response body yields exactly the
expected `Bug` structure; an HTTP 404 response yields the error recognized
by `IsNotFound` (and no bug value), and `IsNotFound` rejects the other
error kinds. -/
theorem getBug_spec :
    getBugHandle 200 bugDataJson = .ok bugStruct ∧
    getBugHandle 404 Json.null = .error .notFound ∧
    IsNotFound .notFound = true ∧
    IsNotFound .decodeFailure = false ∧
    IsNotFound (.requestFailure 500) = false :=
  ⟨by decide, rfl, rfl, rfl, rfl⟩

/-- Claim C7: `UpdateBug` issues a PUT to `/rest/bug/<id>` whose body is
exactly the JSON payload carrying the status; a 200 response is success,
and a 404 response maps to the error kind recognized by `IsNotFound`. -/
theorem updateBug_spec :
    updateBugRequest 1705243 { Status := "UPDATED" } =
      { method := "PUT", path := "/rest/bug/1705243",
        contentType := "application/json",
        body := "\x7b\"status\":\"UPDATED\"\x7d" } ∧
    updateBugHandle 200 = none ∧
    updateBugHandle 404 = some .notFound ∧
    IsNotFound .notFound = true :=
  ⟨rfl, rfl, rfl, rfl⟩

/-- Claim C8: an unrecognized auth-mode name is a configuration error; each
recognized mode attaches the credential through exactly its one mechanism;
and the empty selection keeps the default attaching both the `api_key`
query parameter and the `X-BUGZILLA-API-KEY` header and no bearer
header. -/
theorem auth_modes (apiKey : String) :
    SetAuthMethod "garbagein" = .error .invalidAuthMethod ∧
    (SetAuthMethod AuthBearer = .ok .bearer ∧
      applyAuth .bearer apiKey =
        { authorizationHeader := some ("Bearer " ++ apiKey),
          xBugzillaAPIKeyHeader := none, apiKeyQuery := none }) ∧
    (SetAuthMethod AuthQuery = .ok .query ∧
      applyAuth .query apiKey =
        { authorizationHeader := none, xBugzillaAPIKeyHeader := none,
          apiKeyQuery := some apiKey }) ∧
    (SetAuthMethod AuthXBugzillaAPIKey = .ok .xBugzillaAPIKey ∧
      applyAuth .xBugzillaAPIKey apiKey =
        { authorizationHeader := none,
          xBugzillaAPIKeyHeader := some apiKey, apiKeyQuery := none }) ∧
    (SetAuthMethod "" = .ok .defaultBoth ∧
      applyAuth .defaultBoth apiKey =
        { authorizationHeader := none,
          xBugzillaAPIKeyHeader := some apiKey,
          apiKeyQuery := some apiKey }) :=
  ⟨rfl, ⟨rfl, rfl⟩, ⟨rfl, rfl⟩, ⟨rfl, rfl⟩, ⟨rfl, rfl⟩⟩

/-- Claim C8 witness: the bearer mode at the test's key carries the
credential in the `Authorization` header alone. -/
theorem auth_modes_w :
    applyAuth .bearer "api-key" =
      { authorizationHeader := some ("Bearer " ++ "api-key"),
        xBugzillaAPIKeyHeader := none, apiKeyQuery := none } :=
  (auth_modes "api-key").2.1.2

/-- Claim C10: `HasTargetReleae` returns true exactly when some element of
the bug's target releases equals some element of the searched targets; in
particular it returns false when either list is empty. -/
theorem hasTargetReleae_iff (bug : Bug) (targets : List String) :
    (bug.HasTargetReleae targets = true ↔
      ∃ t, t ∈ bug.TargetRelease ∧ t ∈ targets) ∧
    bug.HasTargetReleae [] = false ∧
    Bug.HasTargetReleae { bug with TargetRelease := [] } targets = false := by
  refine ⟨?_, ?_, rfl⟩
  · simp only [Bug.HasTargetReleae, List.any_eq_true, beq_iff_eq]
    constructor
    · rintro ⟨x, hx, y, hy, rfl⟩
      exact ⟨x, hx, hy⟩
    · rintro ⟨t, ht1, ht2⟩
      exact ⟨t, ht1, t, ht2, rfl⟩
  · simp [Bug.HasTargetReleae]

/-- Claim C10 witness: the characterization at the test fixture's bug and
its own target release. -/
theorem hasTargetReleae_iff_w :
    (bugStruct.HasTargetReleae ["3.11.z"] = true ↔
      ∃ t, t ∈ bugStruct.TargetRelease ∧ t ∈ ["3.11.z"]) ∧
    bugStruct.HasTargetReleae [] = false ∧
    Bug.HasTargetReleae { bugStruct with TargetRelease := [] } ["3.11.z"]
      = false :=
  hasTargetReleae_iff bugStruct ["3.11.z"]

end Bugzilla
